import Mathlib

/-!
Verification of `airflow/www/utils.py` and the TaskTag schema migration
(`airflow/migrations/versions/19d8a998c007_add_tasktag_table.py`).

The Python source is shallowly embedded: each Python function becomes a Lean
definition with the same name wherever Lean allows it, translated
statement-by-statement from the source.  Python `int` is embedded as `Int`
(page numbers may in principle be negative), counts such as the pagination
window as `Nat`, Python strings as `String`, and `None`-able values as
`Option`.
-/

/-! ## Pagination: `generate_pages` and `get_params` -/

/-- Python `range(a, b)` over integers: the list `a, a+1, ..., b-1`
(empty when `b ≤ a`). -/
def intRange (a b : Int) : List Int :=
  (List.range (b - a).toNat).map (fun i => a + (i : Int))

/-- The UTF-8 encoding of one character, as a list of byte values. -/
def utf8EncodeChar (c : Char) : List Nat :=
  let n := c.toNat
  if n < 0x80 then [n]
  else if n < 0x800 then [0xC0 + n / 64, 0x80 + n % 64]
  else if n < 0x10000 then [0xE0 + n / 4096, 0x80 + n / 64 % 64, 0x80 + n % 64]
  else [0xF0 + n / 0x40000, 0x80 + n / 4096 % 64, 0x80 + n / 64 % 64, 0x80 + n % 64]

/-- The UTF-8 bytes of a string. -/
def stringBytes (s : String) : List Nat :=
  (s.data.map utf8EncodeChar).flatten

/-- One byte of `urllib.parse.quote_plus` output: ASCII letters, digits and
`_ . - ~` pass through, a space becomes `+`, every other byte is
percent-encoded with uppercase hex. -/
def quoteByte (b : Nat) : String :=
  let safe :=
    (0x41 ≤ b && b ≤ 0x5A) || (0x61 ≤ b && b ≤ 0x7A) ||
    (0x30 ≤ b && b ≤ 0x39) || b == 0x5F || b == 0x2E || b == 0x2D || b == 0x7E
  if safe then String.singleton (Char.ofNat b)
  else if b == 0x20 then "+"
  else
    let hexDigit := fun (n : Nat) =>
      String.singleton (Char.ofNat (if n < 10 then 48 + n else 55 + n))
    "%" ++ hexDigit (b / 16) ++ hexDigit (b % 16)

/-- `urllib.parse.quote_plus`: percent-encode the UTF-8 bytes of a string. -/
def quote_plus (s : String) : String :=
  String.join ((stringBytes s).map quoteByte)

/-- `urllib.parse.urlencode` on an association list of string pairs:
`k=v` items joined by `&`, both sides quoted. -/
def urlencode (ps : List (String × String)) : String :=
  String.intercalate "&" (ps.map (fun p => quote_plus p.1 ++ "=" ++ quote_plus p.2))

/-- The dictionary comprehension inside `get_params`: keep exactly the
keyword arguments whose value is not `None`. -/
def paramsOf (kwargs : List (String × Option String)) : List (String × String) :=
  kwargs.filterMap (fun p => p.2.map (fun v => (p.1, v)))

/-- `get_params(**kwargs)`: URL-encode the non-`None` keyword arguments
(`urlencode({d: v for d, v in kwargs.items() if v is not None})`). -/
def get_params (kwargs : List (String × Option String)) : String :=
  urlencode (paramsOf kwargs)

/-- The association-list items one optional query parameter contributes to
`get_params`: nothing when the value is `None`, the single pair otherwise. -/
def optPair (k : String) : Option String → List (String × String)
  | none => []
  | some v => [(k, v)]

/-- The literal `void_link` of `generate_pages`. -/
def void_link : String := "javascript:void(0)"

/-- The link `'?{}'.format(get_params(page=p, search=search, status=status))`
built repeatedly inside `generate_pages`; the integer page is stringified by
`urlencode` via `str`. -/
def pageLink (p : Int) (search status : Option String) : String :=
  "?" ++ get_params [("page", some (toString p)), ("search", search), ("status", status)]

/-- Lines 144-152 of `generate_pages`: the list of displayed page indices.
`mid = int(window / 2)`, `last_page = num_of_pages - 1`, then the three-way
branch between the initial window, the centered window and the final window. -/
def page_range (current_page num_of_pages : Int) (window : Nat) : List Int :=
  let mid : Int := (window / 2 : Nat)
  let last_page : Int := num_of_pages - 1
  if current_page ≤ mid ∨ num_of_pages < (window : Int) then
    intRange 0 (min num_of_pages (window : Int))
  else if mid < current_page ∧ current_page < last_page - mid then
    intRange (current_page - mid) (current_page + mid + 1)
  else
    intRange (num_of_pages - (window : Int)) (last_page + 1)

/-- The data of one `page_node` item of `generate_pages`: the `is_active`
marker, the `href_link`, and the displayed (1-based) `page_num`. -/
structure PageNode where
  is_active : String
  href_link : String
  page_num : Int
deriving DecidableEq

/-- The content of the paging component `generate_pages` renders: the
`disabled` markers and `href_link`s of the first/previous/next/last nodes and
the list of numbered page nodes, in source order. -/
structure Pagination where
  first_disabled : String
  first_href : String
  previous_disabled : String
  previous_href : String
  page_nodes : List PageNode
  next_disabled : String
  next_href : String
  last_disabled : String
  last_href : String
deriving DecidableEq

/-- `generate_pages(current_page, num_of_pages, search, status, window)`,
following the source line by line: the shared `is_disabled` marker for the
first and previous nodes (`'disabled' if current_page <= 0 else ''`), the
previous link (`void_link` unless `current_page > 0`), the displayed page
window `page_range`, each page node with its `active` marker and link, and
the shared `is_disabled` marker for the next and last nodes
(`'disabled' if current_page >= num_of_pages - 1 else ''`). -/
def generate_pages (current_page num_of_pages : Int)
    (search status : Option String) (window : Nat) : Pagination :=
  let is_disabled_front := if current_page ≤ 0 then "disabled" else ""
  let previous_href :=
    if current_page > 0 then pageLink (current_page - 1) search status else void_link
  let pages := page_range current_page num_of_pages window
  let page_nodes := pages.map (fun page =>
    { is_active := if page = current_page then "active" else ""
      href_link :=
        if page = current_page then void_link else pageLink page search status
      page_num := page + 1 : PageNode })
  let is_disabled_back := if current_page ≥ num_of_pages - 1 then "disabled" else ""
  let next_href :=
    if current_page ≥ num_of_pages - 1 then void_link
    else pageLink (current_page + 1) search status
  { first_disabled := is_disabled_front
    first_href := pageLink 0 search status
    previous_disabled := is_disabled_front
    previous_href := previous_href
    page_nodes := page_nodes
    next_disabled := is_disabled_back
    next_href := next_href
    last_disabled := is_disabled_back
    last_href := pageLink (num_of_pages - 1) search status }

/-! ## Sensitive variable fields -/

/-- `DEFAULT_SENSITIVE_VARIABLE_FIELDS` from the source. -/
def DEFAULT_SENSITIVE_VARIABLE_FIELDS : List String :=
  ["password", "secret", "passwd", "authorization", "api_key", "apikey", "access_token"]

/-- The two configuration values the sensitive-field functions consult:
the `[admin] hide_sensitive_variable_fields` boolean and the
`[admin] sensitive_variable_fields` comma-separated string. -/
structure AdminConf where
  hide_sensitive_variable_fields : Bool
  sensitive_variable_fields : String
deriving DecidableEq

/-- The default configuration: hiding enabled, no extra configured fields. -/
def defaultConf : AdminConf :=
  { hide_sensitive_variable_fields := true, sensitive_variable_fields := "" }

/-- Python `needle in haystack` on strings: substring containment. -/
def strContains (haystack needle : String) : Bool :=
  decide (needle.data <:+: haystack.data)

/-- Python `str.lower()` on one character (ASCII case mapping). -/
def pyLowerChar (c : Char) : Char :=
  if c.toNat ≥ 65 ∧ c.toNat ≤ 90 then Char.ofNat (c.toNat + 32) else c

/-- Python `str.lower()`. -/
def pyLower (s : String) : String :=
  ⟨s.data.map pyLowerChar⟩

/-- Python `str.strip()`: remove leading and trailing whitespace. -/
def pyStrip (s : String) : String :=
  ⟨((s.data.dropWhile Char.isWhitespace).reverse.dropWhile Char.isWhitespace).reverse⟩

/-- Split a character list on a separator character; splitting the empty list
gives one empty group, as Python `str.split(sep)` does. -/
def splitOnChar (sep : Char) (cs : List Char) : List (List Char) :=
  cs.foldr
    (fun c acc =>
      match acc with
      | [] => [[c]]
      | g :: gs => if c = sep then [] :: g :: gs else (c :: g) :: gs)
    [[]]

/-- Python `s.split(',')`. -/
def pySplitComma (s : String) : List String :=
  (splitOnChar ',' s.data).map (fun g => ⟨g⟩)

/-- `get_sensitive_variables_fields()`: the default set, extended (when the
configured string is non-empty, i.e. truthy) with the stripped items of the
comma-separated configured list.  The Python function returns a `set`; the
embedding returns the list of its members, whose order and multiplicity no
claim depends on. -/
def get_sensitive_variables_fields (conf : AdminConf) : List String :=
  DEFAULT_SENSITIVE_VARIABLE_FIELDS ++
    (if conf.sensitive_variable_fields = "" then []
     else (pySplitComma conf.sensitive_variable_fields).map pyStrip)

/-- `should_hide_value_for_key(key_name)`: `False` for a falsy key (`None` or
the empty string); otherwise the conjunction of the hide toggle and
`any(s in key_name.strip().lower() for s in get_sensitive_variables_fields())`. -/
def should_hide_value_for_key (conf : AdminConf) (key_name : Option String) : Bool :=
  match key_name with
  | none => false
  | some k =>
    if k = "" then false
    else
      let config_set := conf.hide_sensitive_variable_fields
      let field_comp :=
        (get_sensitive_variables_fields conf).any (fun s => strContains (pyLower (pyStrip k)) s)
      config_set && field_comp

/-! ## Schema migration 19d8a998c007 (add TaskTag table)

The migration script runs DDL statements against a database schema.  The
schema is embedded as the set of live sequences and live tables (a table
carries its columns, each knowing which sequence, if any, supplies its server
default, since that dependency constrains drop order); each Alembic/SQLAlchemy
call of the script becomes one `DdlOp`. -/

/-- One column of a created table: its name and the sequence, if any, that
its server default draws from. -/
structure SchemaColumn where
  name : String
  defaultFromSequence : Option String
deriving DecidableEq

/-- One live table: its name, columns and primary-key columns. -/
structure SchemaTable where
  name : String
  columns : List SchemaColumn
  primaryKey : List String
deriving DecidableEq

/-- A database schema: the live sequences and tables. -/
structure Schema where
  sequences : List String
  tables : List SchemaTable
deriving DecidableEq

/-- The DDL statements the migration script issues. -/
inductive DdlOp where
  | createSequence (name : String)
  | createTable (t : SchemaTable)
  | dropTable (name : String)
  | dropSequence (name : String)
deriving DecidableEq

/-- Whether some column of `t` takes its server default from sequence `s`. -/
def SchemaTable.referencesSequence (t : SchemaTable) (s : String) : Bool :=
  t.columns.any (fun c => c.defaultFromSequence = some s)

/-- Apply one DDL statement.  Creation fails on a duplicate name; dropping
fails on a missing name; dropping a sequence fails while a live table still
draws a server default from it (the dependency that forces `downgrade` to
drop the table before the sequence). -/
def applyDdl (s : Schema) : DdlOp → Except String Schema
  | .createSequence n =>
    if n ∈ s.sequences then .error "sequence exists"
    else .ok { s with sequences := s.sequences ++ [n] }
  | .createTable t =>
    if s.tables.any (fun u => u.name = t.name) then .error "table exists"
    else .ok { s with tables := s.tables ++ [t] }
  | .dropTable n =>
    if s.tables.any (fun u => u.name = n) then
      .ok { s with tables := s.tables.filter (fun u => u.name ≠ n) }
    else .error "table missing"
  | .dropSequence n =>
    if n ∈ s.sequences then
      if s.tables.any (fun u => u.referencesSequence n) then
        .error "sequence still referenced"
      else .ok { s with sequences := s.sequences.filter (fun m => m ≠ n) }
    else .error "sequence missing"

/-- Apply a list of DDL statements left to right, stopping at the first error. -/
def runDdl (s : Schema) : List DdlOp → Except String Schema
  | [] => .ok s
  | op :: ops =>
    match applyDdl s op with
    | .ok s2 => runDdl s2 ops
    | .error e => .error e

/-- The `task_tag` table created by `upgrade()`: `tag_id` with its server
default drawn from `tag_id_sequence`, `name`, composite primary key. -/
def task_tag_table : SchemaTable :=
  { name := "task_tag"
    columns :=
      [{ name := "tag_id", defaultFromSequence := some "tag_id_sequence" },
       { name := "name", defaultFromSequence := none }]
    primaryKey := ["tag_id", "name"] }

/-- `upgrade()`: `CreateSequence(tag_id_sequence)` then `create_table('task_tag', ...)`. -/
def upgradeOps : List DdlOp :=
  [.createSequence "tag_id_sequence", .createTable task_tag_table]

/-- `downgrade()`: `drop_table('task_tag')` then `DropSequence(tag_id_sequence)`. -/
def downgradeOps : List DdlOp :=
  [.dropTable "task_tag", .dropSequence "tag_id_sequence"]

/-- The DDL statement undoing a given one. -/
def DdlOp.inverse : DdlOp → DdlOp
  | .createSequence n => .dropSequence n
  | .createTable t => .dropTable t.name
  | .dropTable n => .createTable { name := n, columns := [], primaryKey := [] }
  | .dropSequence n => .createSequence n

/-! ## UTC-aware filters

`UtcAwareFilterMixin.apply` parses the comparison value as a UTC datetime and
delegates to the wrapped filter's `apply`.  `timezone.parse` (from
`airflow.utils.timezone`) and the wrapped flask_appbuilder filters are not
part of this excerpt, so they are modelled from the spec; the query a filter
acts on is embedded as the list of candidate values of the filtered column. -/

/-- A timezone-aware datetime value as `timezone.parse` produces it: the
parsed instant together with its timezone. -/
structure AwareDateTime where
  instant : String
  tz : String
deriving DecidableEq

/-- The `timezone.utc` timezone object. -/
def timezoneUtc : String := "UTC"

/-- Modelled from the spec: `timezone.parse(value, timezone)` from
`airflow.utils.timezone` (absent from this excerpt) interprets the string
comparison value as a datetime in the given timezone. -/
def timezoneParse (value : String) (tz : String) : AwareDateTime :=
  { instant := value, tz := tz }

/-- A query over one datetime column, embedded as the list of the column's
candidate values; a filter keeps the rows it matches. -/
def DtQuery : Type := List AwareDateTime

/-- Modelled from the spec: flask_appbuilder's `FilterEqual.apply`, the
underlying equality comparison filter - keep the rows whose column equals
the comparison value. -/
def FilterEqual.apply (query : DtQuery) (value : AwareDateTime) : DtQuery :=
  List.filter (fun r => r = value) query

/-- Modelled from the spec: flask_appbuilder's `FilterGreater.apply` - keep
the rows whose column is greater than the comparison value. -/
def FilterGreater.apply (query : DtQuery) (value : AwareDateTime) : DtQuery :=
  List.filter (fun r => value.instant < r.instant ∨ (value.instant = r.instant ∧ value.tz < r.tz)) query

/-- Modelled from the spec: flask_appbuilder's `FilterSmaller.apply` - keep
the rows whose column is smaller than the comparison value. -/
def FilterSmaller.apply (query : DtQuery) (value : AwareDateTime) : DtQuery :=
  List.filter (fun r => r.instant < value.instant ∨ (r.instant = value.instant ∧ r.tz < value.tz)) query

/-- Modelled from the spec: flask_appbuilder's `FilterNotEqual.apply` - keep
the rows whose column differs from the comparison value. -/
def FilterNotEqual.apply (query : DtQuery) (value : AwareDateTime) : DtQuery :=
  List.filter (fun r => r ≠ value) query

/-- `UtcAwareFilterMixin.apply(self, query, value)`: parse the value as a UTC
datetime, then call `super().apply(query, value)`.  The method resolution
order makes `super().apply` the wrapped filter's `apply`, passed here as
`superApply`. -/
def UtcAwareFilterMixin.apply (superApply : DtQuery → AwareDateTime → DtQuery)
    (query : DtQuery) (value : String) : DtQuery :=
  let parsed := timezoneParse value timezoneUtc
  superApply query parsed

/-- `UtcAwareFilterEqual.apply`: the mixin over `FilterEqual`. -/
def UtcAwareFilterEqual.apply (query : DtQuery) (value : String) : DtQuery :=
  UtcAwareFilterMixin.apply FilterEqual.apply query value

/-- `UtcAwareFilterGreater.apply`: the mixin over `FilterGreater`. -/
def UtcAwareFilterGreater.apply (query : DtQuery) (value : String) : DtQuery :=
  UtcAwareFilterMixin.apply FilterGreater.apply query value

/-- `UtcAwareFilterSmaller.apply`: the mixin over `FilterSmaller`. -/
def UtcAwareFilterSmaller.apply (query : DtQuery) (value : String) : DtQuery :=
  UtcAwareFilterMixin.apply FilterSmaller.apply query value

/-- `UtcAwareFilterNotEqual.apply`: the mixin over `FilterNotEqual`. -/
def UtcAwareFilterNotEqual.apply (query : DtQuery) (value : String) : DtQuery :=
  UtcAwareFilterMixin.apply FilterNotEqual.apply query value

/-! ## Tag-relation form-field conversion

`TaskTagModelConverter._convert_col` from the source dispatches on
`datamodel.is_tasktag`; the parent `GeneralModelConverter` and its
`_convert_simple` are flask_appbuilder code absent from this excerpt and are
modelled from the spec. -/

/-- The relationship cardinality metadata a data model records for a
relation column. -/
inductive RelationCardinality where
  | manyToOne
  | manyToMany
  | oneToOne
  | oneToMany
deriving DecidableEq

/-- The column introspection interface a model converter consults: whether a
column is a task-tag relation (`CustomSQLAInterface.is_tasktag`), whether it
is a relation at all, and its relationship cardinality metadata. -/
structure ConverterDatamodel where
  tasktagCols : String → Bool
  relationCols : String → Bool
  cardinality : String → RelationCardinality

/-- The form field a column conversion produces: either the simple
single-value free-text field of `_convert_simple`, or the relational field
of the parent converter's default relation-handling path. -/
inductive ConvertedField where
  | simpleField (col_name label description : String) (lst_validators : List String)
      (form_props : List String)
  | relationalField (col_name : String) (card : RelationCardinality)
deriving DecidableEq

/-- Modelled from the spec: flask_appbuilder's
`GeneralModelConverter._convert_simple` yields the simple single-value
free-text field for the column. -/
def GeneralModelConverter.convert_simple (col_name label description : String)
    (lst_validators : List String) (form_props : List String) : ConvertedField :=
  ConvertedField.simpleField col_name label description lst_validators form_props

/-- Modelled from the spec: flask_appbuilder's
`GeneralModelConverter._convert_col` routes a relation column to the default
relation-handling path (a relational field shaped by the column's
cardinality metadata) and any other column to the simple path. -/
def GeneralModelConverter.convert_col (dm : ConverterDatamodel)
    (col_name label description : String) (lst_validators : List String)
    (filter_rel_fields : List String) (form_props : List String) : ConvertedField :=
  if dm.relationCols col_name then
    ConvertedField.relationalField col_name (dm.cardinality col_name)
  else
    GeneralModelConverter.convert_simple col_name label description lst_validators form_props

/-- `TaskTagModelConverter._convert_col`: when
`self.datamodel.is_tasktag(col_name)` holds, convert with `_convert_simple`;
otherwise delegate unchanged to `GeneralModelConverter._convert_col`. -/
def TaskTagModelConverter.convert_col (dm : ConverterDatamodel)
    (col_name label description : String) (lst_validators : List String)
    (filter_rel_fields : List String) (form_props : List String) : ConvertedField :=
  if dm.tasktagCols col_name then
    GeneralModelConverter.convert_simple col_name label description lst_validators form_props
  else
    GeneralModelConverter.convert_col dm col_name label description lst_validators
      filter_rel_fields form_props

/-! ## Theorems -/

/-- C1: for every window size and every page count with
`num_of_pages >= window`, writing `mid = window div 2`, the displayed page
indices of `generate_pages` are the contiguous range
`[current_page - mid, current_page + mid]` centered on the current page when
`mid < current_page < (num_of_pages - 1) - mid`, and are exactly the last
`window` pages `[num_of_pages - window, num_of_pages - 1]` when the current
page is near the end (`current_page >= (num_of_pages - 1) - mid` and
`current_page > mid`); the page nodes `generate_pages` renders display
exactly those indices (shifted to 1-based numbers). -/
theorem page_range_centered_or_tail
    (window : Nat) (current_page num_of_pages : Int)
    (hw : (window : Int) ≤ num_of_pages) :
    (((window / 2 : Nat) : Int) < current_page ∧
        current_page < (num_of_pages - 1) - ((window / 2 : Nat) : Int) →
      page_range current_page num_of_pages window =
        intRange (current_page - ((window / 2 : Nat) : Int))
          (current_page + ((window / 2 : Nat) : Int) + 1)) ∧
    ((num_of_pages - 1) - ((window / 2 : Nat) : Int) ≤ current_page ∧
        ((window / 2 : Nat) : Int) < current_page →
      page_range current_page num_of_pages window =
        intRange (num_of_pages - (window : Int)) num_of_pages) ∧
    (∀ search status : Option String,
      (generate_pages current_page num_of_pages search status window).page_nodes.map
          PageNode.page_num =
        (page_range current_page num_of_pages window).map (fun p => p + 1)) := by
  refine ⟨?_, ?_, ?_⟩
  · rintro ⟨h1, h2⟩
    simp only [page_range]
    split_ifs with hA hB
    · exfalso; omega
    · rfl
    · exfalso; omega
  · rintro ⟨h1, h2⟩
    simp only [page_range]
    split_ifs with hA hB
    · exfalso; omega
    · exfalso; omega
    · have h3 : num_of_pages - 1 + 1 = num_of_pages := by omega
      rw [h3]
  · intro search status
    simp [generate_pages]

/-- C1 witness: at `window = 7`, `current_page = 10`, `num_of_pages = 20` the
centered branch applies and yields the window around page 10. -/
theorem page_range_centered_or_tail_witness :
    page_range 10 20 7 = intRange (10 - ((7 / 2 : Nat) : Int)) (10 + ((7 / 2 : Nat) : Int) + 1) :=
  (page_range_centered_or_tail 7 10 20 (by decide)).1 (by decide)

/-- C2 counterexample: at `current_page = 0`, `num_of_pages = 3`,
`window = 7` the claim's hypothesis holds, yet the displayed pages are not
`[0, window) = [0, ..., 6]` (they are `[0, 1, 2]`). -/
theorem page_range_initial_window_counterexample :
    ((0 : Int) ≤ ((7 / 2 : Nat) : Int) ∨ (3 : Int) < (7 : Nat)) ∧
      page_range 0 3 7 ≠ [0, 1, 2, 3, 4, 5, 6] := by
  constructor
  · decide
  · decide

/-- C2 (amended): if the current page is within half the window of the start
(`current_page <= window div 2`) or the total page count is fewer than the
window, `generate_pages` displays exactly the pages
`[0, min num_of_pages window)`. -/
theorem page_range_initial_window
    (window : Nat) (current_page num_of_pages : Int)
    (h : current_page ≤ ((window / 2 : Nat) : Int) ∨ num_of_pages < (window : Int)) :
    page_range current_page num_of_pages window =
      intRange 0 (min num_of_pages (window : Int)) := by
  simp only [page_range]
  rw [if_pos h]

/-- C2 witness: at `current_page = 0`, `num_of_pages = 3`, `window = 7` the
initial branch applies. -/
theorem page_range_initial_window_witness :
    page_range 0 3 7 = intRange 0 (min 3 (7 : Int)) :=
  page_range_initial_window 7 0 3 (by decide)

/-- C3: for `num_of_pages = 20` and `window = 7` the displayed page-index
list is `[0..6]` at `current_page = 0`, `[7..13]` at `current_page = 10` and
`[13..19]` at `current_page = 19`; the rendered page nodes of
`generate_pages` number exactly those pages (1-based). -/
theorem page_range_examples_20_7 :
    page_range 0 20 7 = [0, 1, 2, 3, 4, 5, 6] ∧
      page_range 10 20 7 = [7, 8, 9, 10, 11, 12, 13] ∧
      page_range 19 20 7 = [13, 14, 15, 16, 17, 18, 19] ∧
      (generate_pages 0 20 none none 7).page_nodes.map PageNode.page_num =
        [1, 2, 3, 4, 5, 6, 7] ∧
      (generate_pages 10 20 none none 7).page_nodes.map PageNode.page_num =
        [8, 9, 10, 11, 12, 13, 14] ∧
      (generate_pages 19 20 none none 7).page_nodes.map PageNode.page_num =
        [14, 15, 16, 17, 18, 19, 20] := by
  refine ⟨by decide, by decide, by decide, ?_, ?_, ?_⟩ <;> decide

/-- C4: in the output of `generate_pages`, for every current page and page
count, the first and previous controls carry the `disabled` marker exactly
when `current_page <= 0`, and the next and last controls carry it exactly
when `current_page >= num_of_pages - 1`. -/
theorem generate_pages_disabled_markers
    (current_page num_of_pages : Int) (search status : Option String) (window : Nat) :
    ((generate_pages current_page num_of_pages search status window).first_disabled =
        "disabled" ↔ current_page ≤ 0) ∧
    ((generate_pages current_page num_of_pages search status window).previous_disabled =
        "disabled" ↔ current_page ≤ 0) ∧
    ((generate_pages current_page num_of_pages search status window).next_disabled =
        "disabled" ↔ num_of_pages - 1 ≤ current_page) ∧
    ((generate_pages current_page num_of_pages search status window).last_disabled =
        "disabled" ↔ num_of_pages - 1 ≤ current_page) := by
  refine ⟨?_, ?_, ?_, ?_⟩ <;>
    · simp only [generate_pages]
      split_ifs with h
      · simpa using h
      · simp only [String.reduceEq, false_iff]
        omega

/-- C5: under the default configuration (hiding enabled, no extra configured
fields), `should_hide_value_for_key` returns `True` for `"user_password"`
and `False` for `"username"`; in general a key is flagged exactly when some
entry of the merged sensitive-field set is a substring of the stripped,
lower-cased key. -/
theorem should_hide_default_config
    : should_hide_value_for_key defaultConf (some "user_password") = true ∧
      should_hide_value_for_key defaultConf (some "username") = false ∧
      ∀ key : String,
        should_hide_value_for_key defaultConf (some key) =
          (get_sensitive_variables_fields defaultConf).any
            (fun s => strContains (pyLower (pyStrip key)) s) := by
  refine ⟨by decide, by decide, ?_⟩
  intro key
  by_cases hk : key = ""
  · subst hk
    decide
  · simp only [should_hide_value_for_key, if_neg hk]
    simp [defaultConf]

/-- C6: `upgrade()` creates the sequence `tag_id_sequence` and then the table
`task_tag`, `downgrade()` drops the table and then the sequence - the exact
reverse order of creation - and on any schema where neither object exists
(nor any table referencing the sequence), running `upgrade` then `downgrade`
restores the schema exactly, leaving neither the table nor the sequence. -/
theorem migration_round_trip (s : Schema)
    (hseq : "tag_id_sequence" ∉ s.sequences)
    (htab : s.tables.any (fun u => u.name = "task_tag") = false)
    (href : s.tables.any (fun u => u.referencesSequence "tag_id_sequence") = false) :
    upgradeOps = [DdlOp.createSequence "tag_id_sequence", DdlOp.createTable task_tag_table] ∧
    downgradeOps = (upgradeOps.map DdlOp.inverse).reverse ∧
    ∃ u : Schema,
      runDdl s upgradeOps = Except.ok u ∧
      "tag_id_sequence" ∈ u.sequences ∧
      task_tag_table ∈ u.tables ∧
      runDdl u downgradeOps = Except.ok s := by
  have hft : List.filter (fun u => decide (u.name ≠ "task_tag")) s.tables = s.tables := by
    rw [List.filter_eq_self]
    intro a ha
    have := List.any_eq_false.mp htab a ha
    simpa using this
  have hfs : List.filter (fun m => decide (m ≠ "tag_id_sequence")) s.sequences = s.sequences := by
    rw [List.filter_eq_self]
    intro a ha
    have : a ≠ "tag_id_sequence" := fun h => hseq (h ▸ ha)
    simpa using this
  refine ⟨rfl, rfl,
    ⟨⟨s.sequences ++ ["tag_id_sequence"], s.tables ++ [task_tag_table]⟩,
      ?_, by simp, by simp, ?_⟩⟩
  · simp only [upgradeOps, runDdl, applyDdl]
    rw [if_neg hseq]
    simp only [runDdl]
    rw [if_neg (by simp only [task_tag_table]; simp [htab])]
  · simp only [downgradeOps, runDdl, applyDdl]
    rw [if_pos (by simp [task_tag_table])]
    simp only [List.filter_append, hft]
    rw [show List.filter (fun u => decide (u.name ≠ "task_tag")) [task_tag_table] = [] by decide]
    simp only [List.append_nil, runDdl]
    rw [if_pos (by simp)]
    rw [if_neg (by simp [href])]
    simp only [List.filter_append, hfs, runDdl]
    rw [show List.filter (fun m => decide (m ≠ "tag_id_sequence")) ["tag_id_sequence"] = [] by decide]
    simp

/-- C6 witness: the round trip on the empty schema. -/
theorem migration_round_trip_witness :
    upgradeOps = [DdlOp.createSequence "tag_id_sequence", DdlOp.createTable task_tag_table] ∧
    downgradeOps = (upgradeOps.map DdlOp.inverse).reverse ∧
    ∃ u : Schema,
      runDdl ⟨[], []⟩ upgradeOps = Except.ok u ∧
      "tag_id_sequence" ∈ u.sequences ∧
      task_tag_table ∈ u.tables ∧
      runDdl u downgradeOps = Except.ok ⟨[], []⟩ :=
  migration_round_trip ⟨[], []⟩ (by decide) (by decide) (by decide)

/-- C7: whenever the data model classifies a column as a task-tag relation,
`TaskTagModelConverter._convert_col` takes the simple single-value conversion
path and never produces the parent's relational conversion, whatever the
column's relationship cardinality metadata; on any other column it delegates
unchanged to the parent's `_convert_col`. -/
theorem tasktag_convert_col_routes_simple
    (dm : ConverterDatamodel) (col_name label description : String)
    (lst_validators : List String) (filter_rel_fields : List String)
    (form_props : List String) :
    (dm.tasktagCols col_name = true →
      TaskTagModelConverter.convert_col dm col_name label description lst_validators
          filter_rel_fields form_props =
        GeneralModelConverter.convert_simple col_name label description lst_validators
          form_props ∧
      ∀ (c : String) (card : RelationCardinality),
        TaskTagModelConverter.convert_col dm col_name label description lst_validators
            filter_rel_fields form_props ≠ ConvertedField.relationalField c card) ∧
    (dm.tasktagCols col_name = false →
      TaskTagModelConverter.convert_col dm col_name label description lst_validators
          filter_rel_fields form_props =
        GeneralModelConverter.convert_col dm col_name label description lst_validators
          filter_rel_fields form_props) := by
  constructor
  · intro h
    constructor
    · simp [TaskTagModelConverter.convert_col, h]
    · intro c card
      simp [TaskTagModelConverter.convert_col, h, GeneralModelConverter.convert_simple]
  · intro h
    simp [TaskTagModelConverter.convert_col, h]

/-- C8: each of the four UTC-aware filters applies the corresponding wrapped
filter to the comparison value parsed as a UTC datetime:
`UtcAwareFilterX.apply(query, value) = FilterX.apply(query, parse(value, utc))`. -/
theorem utc_aware_filters_refine :
    (∀ (query : DtQuery) (value : String),
        UtcAwareFilterEqual.apply query value =
          FilterEqual.apply query (timezoneParse value timezoneUtc)) ∧
    (∀ (query : DtQuery) (value : String),
        UtcAwareFilterGreater.apply query value =
          FilterGreater.apply query (timezoneParse value timezoneUtc)) ∧
    (∀ (query : DtQuery) (value : String),
        UtcAwareFilterSmaller.apply query value =
          FilterSmaller.apply query (timezoneParse value timezoneUtc)) ∧
    (∀ (query : DtQuery) (value : String),
        UtcAwareFilterNotEqual.apply query value =
          FilterNotEqual.apply query (timezoneParse value timezoneUtc)) :=
  ⟨fun _ _ => rfl, fun _ _ => rfl, fun _ _ => rfl, fun _ _ => rfl⟩

/-- C9: for every configuration state, `should_hide_value_for_key` returns
`False` on an empty key (`None` or the empty string), without consulting the
sensitive-field set. -/
theorem should_hide_empty_key (conf : AdminConf) :
    should_hide_value_for_key conf none = false ∧
      should_hide_value_for_key conf (some "") = false := by
  exact ⟨rfl, rfl⟩

/-- C10: `get_params` keeps exactly the keyword arguments whose value is not
`None` (a key appears among the encoded parameters exactly when it is passed
with a non-`None` value, and then with that value); consequently every page
link of `generate_pages` is `?` followed by the encoding of the `page`
parameter plus the `search` and `status` parameters, each present exactly
when not `None`. -/
theorem get_params_omits_none :
    (∀ (kwargs : List (String × Option String)) (k : String),
        (k ∈ (paramsOf kwargs).map Prod.fst ↔ ∃ v, (k, some v) ∈ kwargs)) ∧
    (∀ (kwargs : List (String × Option String)) (k v : String),
        (k, some v) ∈ kwargs → (k, v) ∈ paramsOf kwargs) ∧
    (∀ (p : Int) (search status : Option String),
        pageLink p search status =
          "?" ++ urlencode (("page", toString p) :: optPair "search" search
            ++ optPair "status" status)) ∧
    (∀ (current_page num_of_pages : Int) (search status : Option String) (window : Nat),
        (generate_pages current_page num_of_pages search status window).first_href =
          pageLink 0 search status ∧
        ∀ node ∈ (generate_pages current_page num_of_pages search status window).page_nodes,
          node.href_link = void_link ∨
            node.href_link = pageLink (node.page_num - 1) search status) := by
  refine ⟨?_, ?_, ?_, ?_⟩
  · intro kwargs k
    induction kwargs with
    | nil => simp [paramsOf]
    | cons hd tl ih =>
      obtain ⟨k', v'⟩ := hd
      cases v' <;> simp [paramsOf, List.filterMap_cons] at ih ⊢ <;> aesop
  · intro kwargs k v h
    exact List.mem_filterMap.mpr ⟨(k, some v), h, rfl⟩
  · intro p search status
    cases search <;> cases status <;> rfl
  · intro current_page num_of_pages search status window
    constructor
    · rfl
    · intro node hnode
      simp only [generate_pages, List.mem_map] at hnode
      obtain ⟨p, hp, hnode⟩ := hnode
      by_cases hc : p = current_page
      · left
        rw [← hnode]
        simp [hc]
      · right
        rw [← hnode]
        simp [hc]
